import Mathlib

/-!
Verification development for the aio-pod execution subsystem
(`app/services/exec_service.py` and the `/rpc` route of `app/api/routes.py`).

The Python code is shallowly embedded:
* JSON values are an inductive `Json` type (numbers restricted to integers;
  the claims under study never involve fractional numbers),
* `json.loads` is a fuel-driven recursive-descent reader `parseJson`,
* `json.dumps(..., ensure_ascii=False, separators=(',',':'))` is `Json.dumps`,
* the filesystem facts consulted by the code (`os.access`, `os.chmod`) are a
  `FileState` record, and the behaviour of the spawned child process is a
  `ProcBehavior` value (completed / timed out / spawn failure),
* side effects (chmod, temp-file creation, spawning, killing) are returned in
  an `ExecEffects` record alongside the `ExecutionResponse`.
-/

namespace Aio

/-- JSON values as produced by Python's `json.loads`.  Numbers are restricted
to integers (no claim involves fractional numbers); objects are association
lists with distinct keys, later duplicate keys overwriting earlier ones just
as Python `dict` construction does. -/
inductive Json where
  | null : Json
  | bool (b : Bool) : Json
  | num (n : Int) : Json
  | str (s : String) : Json
  | arr (elems : List Json) : Json
  | obj (fields : List (String × Json)) : Json

/-- The character `{` (written via its code point to keep it out of string
literals). -/
def lbrace : Char := Char.ofNat 123

/-- The character `}`. -/
def rbrace : Char := Char.ofNat 125

/-- Hexadecimal digit for `n % 16`. -/
def hexDigit (n : Nat) : Char :=
  let m := n % 16
  if m < 10 then Char.ofNat (48 + m) else Char.ofNat (87 + m)

/-- Four-digit hexadecimal rendering used by `json.dumps` for control
characters (`\u00XX`). -/
def hex4 (n : Nat) : String :=
  String.mk [hexDigit (n / 4096), hexDigit (n / 256), hexDigit (n / 16), hexDigit n]

/-- Escaping of one character inside a JSON string, as done by `json.dumps`
with `ensure_ascii=False`: only `"`, `\` and control characters are escaped. -/
def escapeJsonChar (c : Char) : String :=
  if c = '"' then "\\\""
  else if c = '\\' then "\\\\"
  else if c = '\n' then "\\n"
  else if c = '\t' then "\\t"
  else if c = '\r' then "\\r"
  else if c = Char.ofNat 8 then "\\b"
  else if c = Char.ofNat 12 then "\\f"
  else if c.toNat < 32 then "\\u" ++ hex4 c.toNat
  else String.singleton c

/-- Serialization of a JSON string literal. -/
def dumpString (s : String) : String :=
  "\"" ++ String.join (s.toList.map escapeJsonChar) ++ "\""

mutual

/-- Model of `json.dumps(value, ensure_ascii=False, separators=(',',':'))`:
compact serialization with no whitespace. -/
def Json.dumps : Json → String
  | .null => "null"
  | .bool true => "true"
  | .bool false => "false"
  | .num n => toString n
  | .str s => dumpString s
  | .arr elems => "[" ++ dumpsArr elems ++ "]"
  | .obj fields =>
      String.singleton lbrace ++ dumpsObj fields ++ String.singleton rbrace

/-- Comma-separated serialization of array elements. -/
def dumpsArr : List Json → String
  | [] => ""
  | [j] => Json.dumps j
  | j :: rest => Json.dumps j ++ "," ++ dumpsArr rest

/-- Comma-separated serialization of object members (`key:value`). -/
def dumpsObj : List (String × Json) → String
  | [] => ""
  | [(k, v)] => dumpString k ++ ":" ++ Json.dumps v
  | (k, v) :: rest => dumpString k ++ ":" ++ Json.dumps v ++ "," ++ dumpsObj rest

end

/-- JSON whitespace skipping (space, tab, newline, carriage return — the
characters `json.loads` skips). -/
def skipWsL : List Char → List Char
  | [] => []
  | c :: rest =>
      if c = ' ' ∨ c = '\t' ∨ c = '\n' ∨ c = '\r' then skipWsL rest else c :: rest

/-- Insert a key/value pair into an object under Python `dict` semantics:
an existing key keeps its position and gets the new value. -/
def upsert (k : String) (v : Json) : List (String × Json) → List (String × Json)
  | [] => [(k, v)]
  | (k', v') :: rest => if k' = k then (k, v) :: rest else (k', v') :: upsert k v rest

/-- Value of a hexadecimal digit, if any. -/
def hexVal (c : Char) : Option Nat :=
  if '0' ≤ c ∧ c ≤ '9' then some (c.toNat - 48)
  else if 'a' ≤ c ∧ c ≤ 'f' then some (c.toNat - 87)
  else if 'A' ≤ c ∧ c ≤ 'F' then some (c.toNat - 55)
  else none

/-- Decode one JSON string-literal character (handles the body after the
opening quote has been consumed).  Returns the decoded characters so far and
the remaining input after the closing quote. -/
def parseStrChars : Nat → List Char → Except String (List Char × List Char)
  | 0, _ => .error "fuel exhausted"
  | _ + 1, [] => .error "Unterminated string"
  | fuel + 1, c :: rest =>
      if c = '"' then .ok ([], rest)
      else if c = '\\' then
        match rest with
        | [] => .error "Unterminated string"
        | e :: rest2 =>
            let decoded : Except String (Char × List Char) :=
              if e = '"' then .ok ('"', rest2)
              else if e = '\\' then .ok ('\\', rest2)
              else if e = '/' then .ok ('/', rest2)
              else if e = 'b' then .ok (Char.ofNat 8, rest2)
              else if e = 'f' then .ok (Char.ofNat 12, rest2)
              else if e = 'n' then .ok ('\n', rest2)
              else if e = 'r' then .ok ('\r', rest2)
              else if e = 't' then .ok ('\t', rest2)
              else if e = 'u' then
                match rest2 with
                | h1 :: h2 :: h3 :: h4 :: rest3 =>
                    match hexVal h1, hexVal h2, hexVal h3, hexVal h4 with
                    | some a, some b, some c1, some d =>
                        .ok (Char.ofNat (a * 4096 + b * 256 + c1 * 16 + d), rest3)
                    | _, _, _, _ => .error "Invalid \\uXXXX escape"
                | _ => .error "Invalid \\uXXXX escape"
              else .error "Invalid \\escape"
            match decoded with
            | .error msg => .error msg
            | .ok (ch, rest') =>
                match parseStrChars fuel rest' with
                | .error msg => .error msg
                | .ok (tail, rem) => .ok (ch :: tail, rem)
      else if c.toNat < 32 then .error "Invalid control character in string"
      else
        match parseStrChars fuel rest with
        | .error msg => .error msg
        | .ok (tail, rem) => .ok (c :: tail, rem)

/-- Split off a leading run of decimal digits. -/
def takeDigits : List Char → List Char × List Char
  | [] => ([], [])
  | c :: rest =>
      if '0' ≤ c ∧ c ≤ '9' then
        let (ds, rem) := takeDigits rest
        (c :: ds, rem)
      else ([], c :: rest)

/-- Numeric value of a digit run. -/
def digitsToNat : List Char → Nat
  | [] => 0
  | ds => ds.foldl (fun acc c => acc * 10 + (c.toNat - 48)) 0

/-- Parse a JSON number.  Fractional and exponent forms are rejected as a
model restriction (the embedded claims never involve non-integer numbers). -/
def parseNum (neg : Bool) (cs : List Char) : Except String (Json × List Char) :=
  let (ds, rest) := takeDigits cs
  if ds.isEmpty then .error "Expecting value"
  else if ds.length > 1 ∧ ds.head? = some '0' then .error "Invalid number with leading zero"
  else
    match rest with
    | c :: _ =>
        if c = '.' ∨ c = 'e' ∨ c = 'E' then .error "non-integer number (model restriction)"
        else
          let n : Int := Int.ofNat (digitsToNat ds)
          .ok (.num (if neg then -n else n), rest)
    | [] =>
        let n : Int := Int.ofNat (digitsToNat ds)
        .ok (.num (if neg then -n else n), rest)

mutual

/-- Recursive-descent JSON reader modelling Python's `json.loads`.
`fuel` strictly decreases at each nested value, so any fuel larger than the
input length is sufficient. -/
def parseVal : Nat → List Char → Except String (Json × List Char)
  | 0, _ => .error "fuel exhausted"
  | fuel + 1, cs =>
      match skipWsL cs with
      | [] => .error "Expecting value"
      | c :: rest =>
          if c = 'n' then
            match rest with
            | 'u' :: 'l' :: 'l' :: rem => .ok (.null, rem)
            | _ => .error "Expecting value"
          else if c = 't' then
            match rest with
            | 'r' :: 'u' :: 'e' :: rem => .ok (.bool true, rem)
            | _ => .error "Expecting value"
          else if c = 'f' then
            match rest with
            | 'a' :: 'l' :: 's' :: 'e' :: rem => .ok (.bool false, rem)
            | _ => .error "Expecting value"
          else if c = '"' then
            match parseStrChars (rest.length + 1) rest with
            | .error msg => .error msg
            | .ok (chars, rem) => .ok (.str (String.mk chars), rem)
          else if c = '-' then parseNum true rest
          else if '0' ≤ c ∧ c ≤ '9' then parseNum false (c :: rest)
          else if c = '[' then
            match skipWsL rest with
            | ']' :: rem => .ok (.arr [], rem)
            | other => parseArrItems fuel other []
          else if c = lbrace then
            match skipWsL rest with
            | d :: rem =>
                if d = rbrace then .ok (.obj [], rem)
                else parseObjItems fuel (d :: rem) []
            | [] => .error "Expecting property name"
          else .error "Expecting value"

/-- Parse the remaining items of a (non-empty) JSON array. -/
def parseArrItems (fuel : Nat) (cs : List Char) (acc : List Json) :
    Except String (Json × List Char) :=
  match fuel with
  | 0 => .error "fuel exhausted"
  | fuel' + 1 =>
      match parseVal fuel' cs with
      | .error msg => .error msg
      | .ok (j, rest) =>
          match skipWsL rest with
          | ',' :: rem => parseArrItems fuel' rem (acc ++ [j])
          | ']' :: rem => .ok (.arr (acc ++ [j]), rem)
          | _ => .error "Expecting comma delimiter"

/-- Parse the remaining members of a (non-empty) JSON object, collapsing
duplicate keys the way Python `dict` does. -/
def parseObjItems (fuel : Nat) (cs : List Char) (acc : List (String × Json)) :
    Except String (Json × List Char) :=
  match fuel with
  | 0 => .error "fuel exhausted"
  | fuel' + 1 =>
      match skipWsL cs with
      | '"' :: rest =>
          match parseStrChars (rest.length + 1) rest with
          | .error msg => .error msg
          | .ok (kchars, rem1) =>
              match skipWsL rem1 with
              | ':' :: rem2 =>
                  match parseVal fuel' rem2 with
                  | .error msg => .error msg
                  | .ok (v, rem3) =>
                      let acc' := upsert (String.mk kchars) v acc
                      match skipWsL rem3 with
                      | ',' :: rem4 => parseObjItems fuel' rem4 acc'
                      | d :: rem4 =>
                          if d = rbrace then .ok (.obj acc', rem4)
                          else .error "Expecting comma delimiter"
                      | [] => .error "Expecting comma delimiter"
              | _ => .error "Expecting colon delimiter"
      | _ => .error "Expecting property name"

end

/-- Model of `json.loads`: parse a whole string as one JSON document; trailing
whitespace is allowed, any other trailing content is an error. -/
def parseJson (s : String) : Except String Json :=
  match parseVal (s.length + 1) s.toList with
  | .error msg => .error msg
  | .ok (j, rest) =>
      if (skipWsL rest).isEmpty then .ok j else .error "Extra data"

/-- Mirror of `app/models/schemas.py` `ExecutionResponse`: the normalized outcome of one
process execution.  `execution_time` is modelled as a natural number of
seconds (the code stores either the integer timeout or a wall-clock
measurement; the fractional part of the measurement is irrelevant to every
claim). -/
structure ExecutionResponse where
  success : Bool
  stdout : Option String := none
  stderr : Option String := none
  exit_code : Option Int := none
  execution_time : Option Nat := none
  message : String
deriving Repr, DecidableEq

/-- The filesystem facts `execute_file` consults about its target path:
whether the path references an existing regular file, whether the execute
bit is currently set, whether `os.chmod(path, 0o755)` would succeed on the
existing file, and the `str(e)` text of the chmod exception when it fails
(for a missing path this is the `FileNotFoundError` text). -/
structure FileState where
  isPresent : Bool
  executable : Bool
  chmodOk : Bool
  chmodErr : String
deriving Repr, DecidableEq

/-- Behaviour of the spawned child process during one invocation:
it either terminates before the deadline (with an exit code, decoded stdout
and stderr text, and a measured elapsed time), or is still running when the
timeout fires (`stderrSoFar` records any stderr bytes the child produced
before the deadline — the code never reads them on this path), or the spawn
itself raises an OS-level exception with text `errMsg`. -/
inductive ProcBehavior where
  | completed (exitCode : Int) (stdout stderr : String) (elapsed : Nat)
  | timedOut (stderrSoFar : String)
  | spawnFailed (errMsg : String)
deriving Repr, DecidableEq

/-- Observable side effects of one `execute_file` call. -/
structure ExecEffects where
  /-- Whether `os.chmod(filepath, 0o755)` was attempted (the `os.access` X-OK
  gate failed). -/
  chmodAttempted : Bool := false
  /-- the chmod succeeded: the stored file's permission bits are now 0755. -/
  chmodSet : Bool := false
  /-- a subprocess spawn was attempted. -/
  spawnAttempted : Bool := false
  /-- Whether `process.kill()` was called after a timeout. -/
  killed : Bool := false
  /-- content written to a `NamedTemporaryFile(delete=False)`; `none` when no
  temporary file was created. -/
  tempFile : Option String := none
  /-- the temporary file was deleted afterwards (the `os.unlink` call in the
  source is commented out, so this is never set). -/
  tempFileDeleted : Bool := false
  /-- the child was invoked through `create_subprocess_shell` (echo/cat
  piping) rather than `create_subprocess_exec`. -/
  usedShell : Bool := false
deriving Repr, DecidableEq

/-- Python truthiness of `stdin_data` (`if stdin_data:`): `None` and the
empty string are falsy. -/
def stdinTruthy : Option String → Bool
  | none => false
  | some s => !(s == "")

/-- Text `str(e)` of the `asyncio.TimeoutError` raised by `asyncio.wait_for`:
the exception carries no arguments, so its text is empty. -/
def timeoutErrStr : String := ""

/-- The timeout-handler test at `exec_service.py` lines 193–204:
`json.loads(stdin_data)` followed by `request_data.get("method") == "start"`.
A document that is not a JSON object raises `AttributeError` inside the
handler, which is caught — so only an object with a `"method"` member equal
to the string `"start"` passes. -/
def stdinStartMethod (s : String) : Bool :=
  match parseJson s with
  | .ok (.obj fields) =>
      match fields.find? (fun kv => kv.1 == "method") with
      | some (_, .str m) => m == "start"
      | _ => false
  | _ => false

/-- Outcome built by the three normal-termination branches (lines 112–119,
173–180, 232–239): identical in all of them. -/
def completedResponse (rc : Int) (out err : String) (elapsed : Nat) : ExecutionResponse :=
  { success := rc == 0
    stdout := if out == "" then none else some out
    stderr := if err == "" then none else some err
    exit_code := some rc
    execution_time := some elapsed
    message := if rc == 0 then "Execution successful"
               else "Execution failed, exit code: " ++ toString rc }

/-- Outcome of the outer `except Exception` handler (lines 254–259). -/
def genericFailResponse (e : String) : ExecutionResponse :=
  { success := false, message := "Execution failed: " ++ e }

/-- Outcome of the two `asyncio.TimeoutError` handlers when the "start"
special case does not apply (lines 206–211 and 247–252). -/
def timeoutResponse (timeout : Nat) : ExecutionResponse :=
  { success := false
    exit_code := none
    execution_time := some timeout
    message := "Execution timeout (>" ++ toString timeout ++ " seconds)" }

/-- Outcome of the "start"-method timeout special case (lines 197–202). -/
def startTimeoutResponse (timeout : Nat) : ExecutionResponse :=
  { success := true
    exit_code := none
    execution_time := some timeout
    message := "Service start successfully" }

/-- The `else` branch of `if stdin_data:` (lines 212–252): direct
`create_subprocess_exec`, timeout handler, no "start" special case. -/
def execNoStdin (proc : ProcBehavior) (timeout : Nat) (eff : ExecEffects) :
    ExecutionResponse × ExecEffects :=
  let eff := { eff with spawnAttempted := true }
  match proc with
  | .completed rc out err elapsed => (completedResponse rc out err elapsed, eff)
  | .timedOut _ => (timeoutResponse timeout, { eff with killed := true })
  | .spawnFailed e => (genericFailResponse e, eff)

/-- The `if stdin_data:` branch with a non-empty payload `s` (lines 59–211). -/
def execWithStdin (proc : ProcBehavior) (s : String) (timeout : Nat)
    (eff : ExecEffects) : ExecutionResponse × ExecEffects :=
  if s.length > 10000 then
    -- temporary-file branch; `delete=False` and the unlink is commented out,
    -- so the file persists on every path.
    let eff := { eff with tempFile := some s, spawnAttempted := true,
                          usedShell := true }
    match proc with
    | .completed rc out err elapsed => (completedResponse rc out err elapsed, eff)
    | .timedOut _ =>
        -- no TimeoutError handler in this branch: the exception reaches the
        -- outer `except Exception`; the child is not killed.
        (genericFailResponse timeoutErrStr, eff)
    | .spawnFailed e => (genericFailResponse e, eff)
  else
    let eff := { eff with spawnAttempted := true, usedShell := true }
    match proc with
    | .completed rc out err elapsed => (completedResponse rc out err elapsed, eff)
    | .timedOut _ =>
        let eff := { eff with killed := true }
        if stdinStartMethod s then (startTimeoutResponse timeout, eff)
        else (timeoutResponse timeout, eff)
    | .spawnFailed e => (genericFailResponse e, eff)

/-- Body of `execute_file` after the permission gate (lines 49–259),
dispatching on the truthiness of `stdin_data`. -/
def execBody (proc : ProcBehavior) (stdin_data : Option String)
    (timeout : Nat) (eff : ExecEffects) : ExecutionResponse × ExecEffects :=
  match stdin_data with
  | some s => if s == "" then execNoStdin proc timeout eff
              else execWithStdin proc s timeout eff
  | none => execNoStdin proc timeout eff

/-- Model of `ExecutionService.execute_file` (`exec_service.py` lines 22–259).

The `arguments` and `environment` parameters only shape the spawned command
line and the child's environment, both of which are abstracted into
`proc : ProcBehavior`; they are kept in the signature for fidelity.

Branch structure mirrors the source:
* permission gate (lines 37–47): `os.access(filepath, X_OK)` is false for a
  missing or non-executable file; then `os.chmod(filepath, 0o755)` is tried
  and any exception yields an early failure outcome with no spawn;
* non-empty stdin longer than 10000 characters (lines 63–128): a persistent
  temporary file plus `cat tmp | filepath` through the shell.  This branch
  has **no** `asyncio.TimeoutError` handler, so a timeout propagates to the
  outer generic `except Exception` handler;
* non-empty stdin of at most 10000 characters (lines 130–211): `echo '...' |
  filepath` through the shell, with the timeout handler that kills the child
  and applies the "start"-method special case;
* no (or empty) stdin (lines 212–252): direct `create_subprocess_exec`, with
  a timeout handler and no "start" special case. -/
def execute_file (fs : FileState) (proc : ProcBehavior)
    (arguments : Option (List String)) (stdin_data : Option String)
    (timeout : Nat) (environment : Option (List (String × String))) :
    ExecutionResponse × ExecEffects :=
  if ¬ (fs.isPresent && fs.executable) = true then
    if fs.isPresent && fs.chmodOk then
      execBody proc stdin_data timeout { chmodAttempted := true, chmodSet := true }
    else
      ({ success := false
         message := "Unable to set executable permissions: " ++ fs.chmodErr },
       { chmodAttempted := true })
  else
    execBody proc stdin_data timeout {}

/-- The permission gate passes (a process can be spawned): the file exists
and is either already executable or chmod-able. -/
def permOk (fs : FileState) : Bool :=
  fs.isPresent && (fs.executable || fs.chmodOk)

/-- Python truthiness of a JSON value (`if params`). -/
def pyTruthy : Json → Bool
  | .null => false
  | .bool b => b
  | .num n => !(n == 0)
  | .str s => !(s == "")
  | .arr elems => !elems.isEmpty
  | .obj fields => !fields.isEmpty

/-- Is `ks` an infix of the character list? -/
def listInfixCheck (ks : List Char) : List Char → Bool
  | [] => ks.isEmpty
  | c :: rest => ks.isPrefixOf (c :: rest) || listInfixCheck ks rest

/-- Substring test on strings (`key in s` for Python strings). -/
def strContains (s key : String) : Bool :=
  listInfixCheck key.toList s.toList

/-- Python `key in value`: membership for dicts (keys) and lists (elements),
substring test for strings, `TypeError` otherwise. -/
def pyIn (key : String) : Json → Except String Bool
  | .obj fields => .ok (fields.any (fun kv => kv.1 == key))
  | .arr elems =>
      .ok (elems.any (fun j => match j with | .str s => s == key | _ => false))
  | .str s => .ok (strContains s key)
  | _ => .error "TypeError: argument is not iterable"

/-- Python `value[key]` for a string key: dict lookup (`KeyError` when the
key is absent), `TypeError` for every other value. -/
def pySubscript (j : Json) (key : String) : Except String Json :=
  match j with
  | .obj fields =>
      match fields.find? (fun kv => kv.1 == key) with
      | some kv => .ok kv.2
      | none => .error "KeyError"
  | _ => .error "TypeError: value is not subscriptable by a string"

/-- Python `len(value)`: length of strings, lists and dicts; `TypeError`
for numbers, booleans and `None`. -/
def pyLen : Json → Except String Nat
  | .str s => .ok s.length
  | .arr elems => .ok elems.length
  | .obj fields => .ok fields.length
  | _ => .error "TypeError: object has no len"

/-- The timeout adjustment of `execute_json_rpc` (`exec_service.py` lines
284–288): `if params and "base64_data" in params and
len(params["base64_data"]) > 1000000: timeout = max(timeout, 60)`.
An `Except.error` models a `TypeError` escaping the function. -/
def effectiveTimeout (params : Option Json) (timeout : Nat) : Except String Nat :=
  match params with
  | none => .ok timeout
  | some p =>
      if pyTruthy p then
        match pyIn "base64_data" p with
        | .error e => .error e
        | .ok false => .ok timeout
        | .ok true =>
            match pySubscript p "base64_data" with
            | .error e => .error e
            | .ok v =>
                match pyLen v with
                | .error e => .error e
                | .ok n => .ok (if n > 1000000 then max timeout 60 else timeout)
      else .ok timeout

/-- The JSON-RPC request envelope built at lines 291–296:
`{jsonrpc:"2.0", method, params: params or {}, id: id or 1}` (the code uses
`is not None` tests, so the defaults apply exactly when the caller passed
`None`). -/
def rpcRequest (method : String) (params id : Option Json) : Json :=
  .obj [("jsonrpc", .str "2.0"), ("method", .str method),
        ("params", params.getD (.obj [])), ("id", id.getD (.num 1))]

/-- An `Optional[str]` embedded as a JSON value (`None` → `null`). -/
def optStrJson : Option String → Json
  | none => .null
  | some s => .str s

/-- An `Optional[int]` embedded as a JSON value. -/
def optIntJson : Option Int → Json
  | none => .null
  | some n => .num n

/-- The `id` used in every response dict literal: the raw caller-supplied
`id`, which is `None` (→ `null`) when the caller passed none. -/
def idJson : Option Json → Json := fun o => o.getD .null

/-- Python truthiness of `result.stdout` (`if result.stdout:`). -/
def optTruthy : Option String → Bool
  | none => false
  | some o => !(o == "")

/-- Error envelope for a failed Runner outcome (lines 350–363). -/
def runnerFailEnvelope (message : String) (stderr : Option String)
    (exit_code : Option Int) (id : Option Json) : Json :=
  .obj [("jsonrpc", .str "2.0"),
        ("error", .obj [("code", .num (-32603)), ("message", .str message),
                        ("data", .obj [("stderr", optStrJson stderr),
                                       ("exit_code", optIntJson exit_code)])]),
        ("id", idJson id)]

/-- Synthesized success envelope for the "start" method with empty output
(lines 374–383). -/
def startNoOutputEnvelope (id : Option Json) : Json :=
  .obj [("jsonrpc", .str "2.0"),
        ("result", .obj [("status", .str "success"),
                         ("message", .str "Service started successfully")]),
        ("id", idJson id)]

/-- Error envelope for empty output on a non-"start" method (lines 384–397). -/
def noOutputErrorEnvelope (stderr : Option String) (exit_code : Option Int)
    (id : Option Json) : Json :=
  .obj [("jsonrpc", .str "2.0"),
        ("error", .obj [("code", .num (-32603)),
                        ("message", .str "Execution successful but no output"),
                        ("data", .obj [("stderr", optStrJson stderr),
                                       ("exit_code", optIntJson exit_code)])]),
        ("id", idJson id)]

/-- Error envelope for stdout that fails to parse as JSON (lines 399–414). -/
def invalidResponseEnvelope (stdout stderr : Option String)
    (exit_code : Option Int) (parse_error : String) (id : Option Json) : Json :=
  .obj [("jsonrpc", .str "2.0"),
        ("error", .obj [("code", .num (-32603)),
                        ("message", .str "Response is not a valid JSON-RPC response"),
                        ("data", .obj [("stdout", optStrJson stdout),
                                       ("stderr", optStrJson stderr),
                                       ("exit_code", optIntJson exit_code),
                                       ("parse_error", .str parse_error)])]),
        ("id", idJson id)]

/-- Model of `ExecutionService.execute_json_rpc` (`exec_service.py` lines 261–414).

`params` and `id` are the values taken from the parsed HTTP request
(`rpc_request.get(...)`), so they are JSON values or `None`; with JSON-typed
`params` the `json.dumps` call at line 301 always succeeds, making the
-32700 serialization-failure branch (lines 316–325) unreachable in this
embedding.  An `Except.error` result models a `TypeError` raised by the
timeout heuristic escaping the function. -/
def execute_json_rpc (fs : FileState) (proc : ProcBehavior) (method : String)
    (params id : Option Json) (timeout : Nat) : Except String Json :=
  match effectiveTimeout params timeout with
  | .error e => .error e
  | .ok timeout' =>
      let stdin_data := (rpcRequest method params id).dumps
      let result := (execute_file fs proc none (some stdin_data) timeout' none).1
      if !result.success then
        .ok (runnerFailEnvelope result.message result.stderr result.exit_code id)
      else if optTruthy result.stdout then
        match parseJson (result.stdout.getD "") with
        | .ok resp => .ok resp
        | .error e =>
            .ok (invalidResponseEnvelope result.stdout result.stderr
                  result.exit_code e id)
      else if method == "start" then .ok (startNoOutputEnvelope id)
      else .ok (noOutputErrorEnvelope result.stderr result.exit_code id)

/-- The 404 envelope of the `/rpc` route (`routes.py` lines 86–99 and
121–133): code -32602, `"File does not exist: <filename>"`. -/
def fileNotFoundEnvelope (filename : String) (requestId : Json) : Json :=
  .obj [("jsonrpc", .str "2.0"),
        ("error", .obj [("code", .num (-32602)),
                        ("message", .str ("File does not exist: " ++ filename))]),
        ("id", requestId)]

/-- The 500 envelope of the `/rpc` route when the MCP chmod fails
(`routes.py` lines 105–118). -/
def mcpChmodFailEnvelope (requestId : Json) : Json :=
  .obj [("jsonrpc", .str "2.0"),
        ("error", .obj [("code", .num (-32000)),
                        ("message", .str "Failed to set execute permissions")]),
        ("id", requestId)]

/-- Non-MCP branch of the `/rpc` route (`routes.py` lines 119–133): the
existence check performed by the caller before delegating to the Bridge.
Returns the early HTTP response (status, body) when the file is missing. -/
def routeAgentCheck (fileExists : Bool) (filename : String) (requestId : Json) :
    Option (Nat × Json) :=
  if !fileExists then some (404, fileNotFoundEnvelope filename requestId)
  else none

/-- MCP branch of the `/rpc` route (`routes.py` lines 77–118): path
resolution (the `.bin` fallback is collapsed into "the resolved path",
described by `fs`), the existence check, and the **unconditional**
`os.chmod(file_path, 0o755)` — the route never consults the current execute
bit.  Returns the early HTTP response, if any, and whether the file's
permission bits were set to 0755. -/
def routeMcpCheck (fs : FileState) (filename : String) (requestId : Json) :
    Option (Nat × Json) × Bool :=
  if fs.isPresent then
    if fs.isPresent && fs.chmodOk then (none, true)
    else (some (500, mcpChmodFailEnvelope requestId), false)
  else (some (404, fileNotFoundEnvelope filename requestId), false)

/-- A convenient fully-healthy file state: present, executable, chmod-able. -/
def fsOK : FileState := ⟨true, true, true, ""⟩

/-- A stdin payload that parses as a JSON-RPC "start" request (18 characters,
well under the 10000-character temp-file threshold). -/
def startStdin : String := "\x7b\"method\":\"start\"\x7d"

/-- A 10001-character payload, just over the temp-file threshold. -/
def bigA : String := String.mk (List.replicate 10001 'a')

theorem bigA_length : bigA.length = 10001 := by
  show (List.replicate 10001 'a').length = 10001
  rw [List.length_replicate]

theorem bigA_ne_empty : (bigA == "") = false := by
  cases hb : bigA == "" with
  | false => rfl
  | true =>
      simp only [beq_iff_eq] at hb
      have h : bigA.length = 10001 := bigA_length
      rw [hb] at h
      exact absurd h (by decide)

/-- The response of `execBody` does not depend on the incoming effects. -/
theorem execBody_fst_eff (proc : ProcBehavior) (stdin : Option String)
    (t : Nat) (eff eff' : ExecEffects) :
    (execBody proc stdin t eff).1 = (execBody proc stdin t eff').1 := by
  unfold execBody execNoStdin execWithStdin
  cases stdin with
  | none => cases proc <;> rfl
  | some s =>
      by_cases hs : (s == "") = true
      · simp only [hs]; cases proc <;> rfl
      · simp only [eq_false_of_ne_true hs]
        by_cases hl : s.length > 10000
        · simp only [if_pos hl]; cases proc <;> rfl
        · simp only [if_neg hl]
          cases proc with
          | completed rc out err el => rfl
          | timedOut e => by_cases hst : stdinStartMethod s = true <;> simp [hst]
          | spawnFailed e => rfl

/-- When the permission gate passes, `execute_file`'s response is that of
`execBody`. -/
theorem execute_file_fst (fs : FileState) (proc : ProcBehavior)
    (args : Option (List String)) (stdin : Option String) (t : Nat)
    (env : Option (List (String × String))) (h : permOk fs = true) :
    (execute_file fs proc args stdin t env).1 = (execBody proc stdin t {}).1 := by
  unfold execute_file
  by_cases hxe : (fs.isPresent && fs.executable) = true
  · simp [hxe]
  · have hc : (fs.isPresent && fs.chmodOk) = true := by
      simp only [permOk, Bool.and_eq_true, Bool.or_eq_true] at h hxe ⊢
      tauto
    simp only [hxe, not_false_iff, if_true, if_pos hc]
    exact execBody_fst_eff _ _ _ _ _

/-- Normal termination always yields `completedResponse`, whatever the stdin
branch taken. -/
theorem execute_file_completed (fs : FileState) (rc : Int) (out err : String)
    (elapsed : Nat) (args : Option (List String)) (stdin : Option String)
    (t : Nat) (env : Option (List (String × String))) (h : permOk fs = true) :
    (execute_file fs (.completed rc out err elapsed) args stdin t env).1 =
      completedResponse rc out err elapsed := by
  rw [execute_file_fst _ _ _ _ _ _ h]
  unfold execBody execNoStdin execWithStdin
  cases stdin with
  | none => rfl
  | some s =>
      by_cases hs : (s == "") = true
      · simp [hs]
      · simp only [eq_false_of_ne_true hs]
        by_cases hl : s.length > 10000 <;> simp [hl]

/-- Non-empty stdin dispatches `execBody` to `execWithStdin`. -/
theorem execBody_some (proc : ProcBehavior) (s : String) (t : Nat)
    (eff : ExecEffects) (hne : (s == "") = false) :
    execBody proc (some s) t eff = execWithStdin proc s t eff := by
  unfold execBody
  simp [hne]

/-- Effects pass `chmodAttempted` and `chmodSet` through `execBody`
unchanged. -/
theorem execBody_chmod_eff (proc : ProcBehavior) (stdin : Option String)
    (t : Nat) (eff : ExecEffects) :
    (execBody proc stdin t eff).2.chmodAttempted = eff.chmodAttempted ∧
    (execBody proc stdin t eff).2.chmodSet = eff.chmodSet := by
  unfold execBody execNoStdin execWithStdin
  cases stdin with
  | none => cases proc <;> simp
  | some s =>
      by_cases hs : (s == "") = true
      · simp only [hs]; cases proc <;> simp
      · simp only [eq_false_of_ne_true hs]
        by_cases hl : s.length > 10000
        · simp only [if_pos hl]; cases proc <;> simp
        · simp only [if_neg hl]; cases proc <;> simp [apply_ite]

/-- Field `chmodAttempted` passes through `execBody` unchanged. -/
theorem execBody_chmodAttempted (proc : ProcBehavior) (stdin : Option String)
    (t : Nat) (eff : ExecEffects) :
    (execBody proc stdin t eff).2.chmodAttempted = eff.chmodAttempted :=
  (execBody_chmod_eff proc stdin t eff).1

/-- Field `chmodSet` passes through `execBody` unchanged. -/
theorem execBody_chmodSet (proc : ProcBehavior) (stdin : Option String)
    (t : Nat) (eff : ExecEffects) :
    (execBody proc stdin t eff).2.chmodSet = eff.chmodSet :=
  (execBody_chmod_eff proc stdin t eff).2

/-- Claim C1, counterexample.  The claim states that when stderr bytes were
produced before the timeout fired, the "start" timeout exception does not
apply and the outcome is a failure carrying that stderr content.  In the
code the timeout handler (lines 182–211) never consults stderr: with stdin
`{"method":"start"}` and stderr bytes `"boom"` produced before the deadline,
the outcome is still success=true with no stderr carried. -/
theorem C1_counterexample :
    (execute_file fsOK (.timedOut "boom") none (some startStdin) 5 none).1.success
      = true ∧
    (execute_file fsOK (.timedOut "boom") none (some startStdin) 5 none).1.stderr
      = none ∧
    (execute_file fsOK (.timedOut "boom") none (some startStdin) 5 none).1.message
      = "Service start successfully" := by
  refine ⟨rfl, rfl, rfl⟩

/-- Claim C1, amended.  For stdin payloads of at most 10000 characters that
parse as a JSON object with `method == "start"`, a timeout yields
success=true with message "Service start successfully" regardless of any
stderr produced before the deadline; for payloads longer than 10000
characters the timeout instead surfaces through the generic exception
handler as a failure ("Execution failed: "), because the temp-file branch
has no timeout handler and hence no "start" special case. -/
theorem C1_amended (fs : FileState) (e s : String) (timeout : Nat)
    (args : Option (List String)) (env : Option (List (String × String)))
    (hperm : permOk fs = true) (hne : (s == "") = false) :
    (s.length ≤ 10000 → stdinStartMethod s = true →
      (execute_file fs (.timedOut e) args (some s) timeout env).1 =
        startTimeoutResponse timeout) ∧
    (s.length > 10000 →
      (execute_file fs (.timedOut e) args (some s) timeout env).1 =
        genericFailResponse timeoutErrStr) := by
  rw [execute_file_fst _ _ _ _ _ _ hperm, execBody_some _ _ _ _ hne]
  unfold execWithStdin
  constructor
  · intro hlen hstart
    rw [if_neg (by omega)]
    simp [hstart]
  · intro hlen
    rw [if_pos hlen]

/-- Claim C1, witness for the amended theorem. -/
theorem C1_witness :
    (execute_file fsOK (.timedOut "errbytes") none (some startStdin) 9 none).1 =
      startTimeoutResponse 9 :=
  (C1_amended fsOK "errbytes" startStdin 9 none none rfl (by decide)).1
    (by decide) (by decide)

/-- Claim C2, counterexample.  The claim states that every over-timeout
invocation (outside the "start" exception) produces success=false with
elapsed = the requested timeout and message "Execution timeout (>N
seconds)", regardless of the stdin payload length.  With a 10001-character
payload the temp-file branch is taken, which has no `asyncio.TimeoutError`
handler: the timeout propagates to the generic `except Exception` handler
and the outcome message is "Execution failed: " with no elapsed time. -/
theorem C2_counterexample :
    (execute_file fsOK (.timedOut "") none (some bigA) 30 none).1.message =
      "Execution failed: " ∧
    (execute_file fsOK (.timedOut "") none (some bigA) 30 none).1.execution_time
      = none := by
  have h : (execute_file fsOK (.timedOut "") none (some bigA) 30 none).1 =
      genericFailResponse timeoutErrStr := by
    rw [execute_file_fst fsOK _ _ _ _ _ rfl, execBody_some _ _ _ _ bigA_ne_empty]
    unfold execWithStdin
    rw [if_pos (by rw [bigA_length]; omega)]
  rw [h]
  exact ⟨rfl, rfl⟩

/-- Claim C2, amended.  The claimed timeout outcome (success=false,
exit_code absent, elapsed = requested timeout, message "Execution timeout
(>N seconds)") holds when no stdin was supplied, when the stdin payload is
empty, and when it has at most 10000 characters and does not parse as a
"start" request; a payload longer than 10000 characters instead yields the
generic failure outcome "Execution failed: " with no elapsed time. -/
theorem C2_amended (fs : FileState) (e s : String) (timeout : Nat)
    (args : Option (List String)) (env : Option (List (String × String)))
    (hperm : permOk fs = true) :
    ((execute_file fs (.timedOut e) args none timeout env).1 =
        timeoutResponse timeout) ∧
    ((execute_file fs (.timedOut e) args (some "") timeout env).1 =
        timeoutResponse timeout) ∧
    ((s == "") = false → s.length ≤ 10000 → stdinStartMethod s = false →
      (execute_file fs (.timedOut e) args (some s) timeout env).1 =
        timeoutResponse timeout) ∧
    ((s == "") = false → s.length > 10000 →
      (execute_file fs (.timedOut e) args (some s) timeout env).1 =
        genericFailResponse timeoutErrStr) := by
  refine ⟨?_, ?_, ?_, ?_⟩
  · rw [execute_file_fst _ _ _ _ _ _ hperm]; rfl
  · rw [execute_file_fst _ _ _ _ _ _ hperm]; rfl
  · intro hne hlen hstart
    rw [execute_file_fst _ _ _ _ _ _ hperm, execBody_some _ _ _ _ hne]
    unfold execWithStdin
    rw [if_neg (by omega)]
    simp [hstart]
  · intro hne hlen
    rw [execute_file_fst _ _ _ _ _ _ hperm, execBody_some _ _ _ _ hne]
    unfold execWithStdin
    rw [if_pos hlen]

/-- Claim C2, witness for the amended theorem. -/
theorem C2_witness :
    (execute_file fsOK (.timedOut "x") none none 30 none).1 =
      timeoutResponse 30 :=
  (C2_amended fsOK "x" "s" 30 none none rfl).1

/-- Claim C3, counterexample.  The claim states that a path that does not
reference an existing regular file fails with a distinct NotFound outcome
(the Runner re-validating defensively), file-not-found being the only
failure surfaced distinctly.  The Runner has no existence check at all: a
missing path makes `os.access(..., X_OK)` false and the subsequent
`os.chmod` raise, so the call returns the same "Unable to set executable
permissions: ..." outcome as a chmod permission failure on an existing file
— here literally the same value for both file states, so the missing-file
failure is not surfaced distinctly. -/
theorem C3_counterexample :
    execute_file ⟨false, false, true, "E"⟩ (.completed 0 "" "" 1) none none 30 none
      =
    execute_file ⟨true, false, false, "E"⟩ (.completed 0 "" "" 1) none none 30 none
    ∧
    (execute_file ⟨false, false, true, "E"⟩ (.completed 0 "" "" 1) none none 30
        none).1.message = "Unable to set executable permissions: E" := by
  exact ⟨rfl, rfl⟩

/-- Claim C3, amended.  The Runner does not re-validate existence: every
call on a missing path falls through the permission-setting step and returns
success=false with message "Unable to set executable permissions: <os
error>" — the same shape as a chmod failure on an existing file — and no
process is spawned.  The distinct NotFound surfacing (HTTP 404 with RPC code
-32602, "File does not exist: <filename>") is performed by the `/rpc` route
before the Runner is invoked. -/
theorem C3_amended (fs : FileState) (proc : ProcBehavior)
    (args : Option (List String)) (stdin : Option String) (timeout : Nat)
    (env : Option (List (String × String))) (filename : String)
    (reqId : Json) (hmiss : fs.isPresent = false) :
    (execute_file fs proc args stdin timeout env).1 =
      { success := false
        message := "Unable to set executable permissions: " ++ fs.chmodErr } ∧
    (execute_file fs proc args stdin timeout env).2.spawnAttempted = false ∧
    routeAgentCheck false filename reqId =
      some (404, fileNotFoundEnvelope filename reqId) ∧
    (routeMcpCheck fs filename reqId).1 =
      some (404, fileNotFoundEnvelope filename reqId) := by
  unfold execute_file routeAgentCheck routeMcpCheck
  rw [hmiss]
  simp

/-- Claim C3, witness for the amended theorem. -/
theorem C3_witness :
    (execute_file ⟨false, true, true, "no such file"⟩ (.timedOut "") none none 30
        none).1 =
      { success := false
        message := "Unable to set executable permissions: no such file" } :=
  (C3_amended ⟨false, true, true, "no such file"⟩ (.timedOut "") none none 30
    none "f" .null rfl).1

/-- Claim C10.  For every call to `execute_file` (that reaches the spawn
phase) with a stdin payload longer than 10000 characters, the full payload
is written to a newly created temporary file (`NamedTemporaryFile` with
`delete=False`), the child is invoked through the shell (`cat tmp | file`),
and the temporary file is never deleted — the `os.unlink` cleanup in the
source is commented out — so it persists after the outcome is returned, on
every completion path. -/
theorem C10_tempfile (fs : FileState) (proc : ProcBehavior)
    (args : Option (List String)) (s : String) (timeout : Nat)
    (env : Option (List (String × String)))
    (hperm : permOk fs = true) (hlen : s.length > 10000) :
    (execute_file fs proc args (some s) timeout env).2.tempFile = some s ∧
    (execute_file fs proc args (some s) timeout env).2.tempFileDeleted = false ∧
    (execute_file fs proc args (some s) timeout env).2.usedShell = true := by
  have hne : (s == "") = false := by
    cases hb : s == "" with
    | false => rfl
    | true =>
        simp only [beq_iff_eq] at hb
        rw [hb] at hlen
        exact absurd hlen (by decide)
  unfold execute_file
  by_cases hxe : (fs.isPresent && fs.executable) = true
  · rw [if_neg (by simp [hxe])]
    rw [execBody_some _ _ _ _ hne]
    unfold execWithStdin
    rw [if_pos hlen]
    cases proc <;> exact ⟨rfl, rfl, rfl⟩
  · have hc : (fs.isPresent && fs.chmodOk) = true := by
      simp only [permOk, Bool.and_eq_true, Bool.or_eq_true] at hperm hxe ⊢
      tauto
    rw [if_pos (by simp [hxe]), if_pos hc]
    rw [execBody_some _ _ _ _ hne]
    unfold execWithStdin
    rw [if_pos hlen]
    cases proc <;> exact ⟨rfl, rfl, rfl⟩

/-- Claim C10, witness. -/
theorem C10_witness :
    (execute_file fsOK (.timedOut "") none (some bigA) 30 none).2.tempFile =
      some bigA :=
  (C10_tempfile fsOK (.timedOut "") none bigA 30 none rfl
    (by rw [bigA_length]; omega)).1

/-- A successful `completedResponse` has exit code 0 and the success
message. -/
theorem completedResponse_success (rc : Int) (out err : String) (el : Nat) :
    (completedResponse rc out err el).success = true →
      (completedResponse rc out err el).exit_code = some 0 ∧
      (completedResponse rc out err el).message = "Execution successful" := by
  intro h
  simp only [completedResponse] at h ⊢
  rw [beq_iff_eq] at h
  subst h
  simp

/-- Shape of every successful `execBody` outcome: either a zero-exit
completion or the "start"-method timeout special case. -/
theorem execBody_success_shape (proc : ProcBehavior) (stdin : Option String)
    (t : Nat) (eff : ExecEffects) :
    (execBody proc stdin t eff).1.success = true →
      ((execBody proc stdin t eff).1.exit_code = some 0 ∧
       (execBody proc stdin t eff).1.message = "Execution successful") ∨
      ((execBody proc stdin t eff).1.exit_code = none ∧
       (execBody proc stdin t eff).1.message = "Service start successfully") := by
  cases stdin with
  | none =>
      have he : execBody proc none t eff = execNoStdin proc t eff := rfl
      rw [he]
      cases proc with
      | completed rc out err el =>
          exact fun h => Or.inl (completedResponse_success rc out err el h)
      | timedOut e =>
          intro h
          exact absurd h (by simp [execNoStdin, timeoutResponse])
      | spawnFailed e =>
          intro h
          exact absurd h (by simp [execNoStdin, genericFailResponse])
  | some s =>
      by_cases hs : (s == "") = true
      · have he : execBody proc (some s) t eff = execNoStdin proc t eff := by
          unfold execBody
          simp [hs]
        rw [he]
        cases proc with
        | completed rc out err el =>
            exact fun h => Or.inl (completedResponse_success rc out err el h)
        | timedOut e =>
            intro h
            exact absurd h (by simp [execNoStdin, timeoutResponse])
        | spawnFailed e =>
            intro h
            exact absurd h (by simp [execNoStdin, genericFailResponse])
      · rw [execBody_some proc s t eff (eq_false_of_ne_true hs)]
        unfold execWithStdin
        by_cases hl : s.length > 10000
        · rw [if_pos hl]
          cases proc with
          | completed rc out err el =>
              exact fun h => Or.inl (completedResponse_success rc out err el h)
          | timedOut e =>
              intro h; exact absurd h (by simp [genericFailResponse])
          | spawnFailed e =>
              intro h; exact absurd h (by simp [genericFailResponse])
        · rw [if_neg hl]
          cases proc with
          | completed rc out err el =>
              exact fun h => Or.inl (completedResponse_success rc out err el h)
          | timedOut e =>
              by_cases hst : stdinStartMethod s = true
              · intro _
                right
                refine ⟨?_, ?_⟩ <;> simp [hst, startTimeoutResponse]
              · intro h
                simp [hst, timeoutResponse] at h
          | spawnFailed e =>
              intro h; exact absurd h (by simp [genericFailResponse])

/-- Claim C8, counterexample.  The claim states that every outcome with
success=true has exit code 0.  The "start"-method timeout outcome has
success=true and an absent exit code. -/
theorem C8_counterexample :
    (execute_file fsOK (.timedOut "") none (some startStdin) 7 none).1.success
      = true ∧
    (execute_file fsOK (.timedOut "") none (some startStdin) 7 none).1.exit_code
      = none := by
  exact ⟨rfl, rfl⟩

/-- Claim C8, amended.  For every execution that terminates before the
timeout, success == (exit_code == 0) and the exit code is recorded; and
every outcome with success=true is either a zero-exit completion with
message "Execution successful" or the "start"-method timeout outcome with
exit code absent and message "Service start successfully" (in particular a
success message is never the timeout message). -/
theorem C8_amended (fs : FileState) (proc : ProcBehavior) (rc : Int)
    (out err : String) (elapsed : Nat) (args : Option (List String))
    (stdin : Option String) (timeout : Nat)
    (env : Option (List (String × String))) (hperm : permOk fs = true) :
    ((execute_file fs (.completed rc out err elapsed) args stdin timeout
        env).1.success = (rc == 0) ∧
     (execute_file fs (.completed rc out err elapsed) args stdin timeout
        env).1.exit_code = some rc) ∧
    ((execute_file fs proc args stdin timeout env).1.success = true →
      ((execute_file fs proc args stdin timeout env).1.exit_code = some 0 ∧
       (execute_file fs proc args stdin timeout env).1.message =
         "Execution successful") ∨
      ((execute_file fs proc args stdin timeout env).1.exit_code = none ∧
       (execute_file fs proc args stdin timeout env).1.message =
         "Service start successfully")) := by
  constructor
  · rw [execute_file_completed _ _ _ _ _ _ _ _ _ hperm]
    exact ⟨rfl, rfl⟩
  · unfold execute_file
    by_cases hxe : (fs.isPresent && fs.executable) = true
    · rw [if_neg (by simp [hxe])]
      exact execBody_success_shape proc stdin timeout {}
    · by_cases hc : (fs.isPresent && fs.chmodOk) = true
      · rw [if_pos (by simp [hxe]), if_pos hc]
        exact execBody_success_shape proc stdin timeout _
      · rw [if_pos (by simp [hxe]), if_neg hc]
        intro h
        exact absurd h (by simp)

/-- Claim C8, witness for the amended theorem. -/
theorem C8_witness :
    (execute_file fsOK (.completed 0 "ok" "" 1) none none 30 none).1.success
      = ((0 : Int) == 0) ∧
    (execute_file fsOK (.completed 0 "ok" "" 1) none none 30 none).1.exit_code
      = some 0 :=
  (C8_amended fsOK (.completed 0 "ok" "" 1) 0 "ok" "" 1 none none 30 none
    rfl).1

/-- Claim C9, counterexample.  The claim states that permission bits are set
to 0755 if and only if the target file lacks execute permission.  The MCP
branch of the `/rpc` route (`routes.py` lines 101–104) calls
`os.chmod(file_path, 0o755)` unconditionally: for an existing file that is
already executable, the bits are still set. -/
theorem C9_counterexample :
    (FileState.mk true true true "x").executable = true ∧
    (routeMcpCheck ⟨true, true, true, "x"⟩ "f.bin" (.num 1)).2 = true := by
  exact ⟨rfl, rfl⟩

/-- Claim C9, amended.  Inside the Runner the claim holds: for an existing
file, chmod is attempted exactly when the execute bit is unset; a successful
chmod sets the bits to 0755 before the spawn, and a failing chmod yields
success=false with the permission-error message and no spawn.  The MCP
branch of the `/rpc` route, however, sets the bits unconditionally (whenever
chmod succeeds), without consulting the execute bit. -/
theorem C9_amended (fs : FileState) (proc : ProcBehavior)
    (args : Option (List String)) (stdin : Option String) (timeout : Nat)
    (env : Option (List (String × String))) (fn : String) (reqId : Json)
    (hpres : fs.isPresent = true) :
    ((execute_file fs proc args stdin timeout env).2.chmodAttempted = true ↔
      fs.executable = false) ∧
    (fs.executable = false → fs.chmodOk = true →
      (execute_file fs proc args stdin timeout env).2.chmodSet = true) ∧
    (fs.executable = false → fs.chmodOk = false →
      (execute_file fs proc args stdin timeout env).1 =
        { success := false
          message := "Unable to set executable permissions: " ++ fs.chmodErr } ∧
      (execute_file fs proc args stdin timeout env).2.spawnAttempted = false) ∧
    (routeMcpCheck fs fn reqId).2 = fs.chmodOk := by
  rcases fs with ⟨p, x, c, er⟩
  have hp : p = true := hpres
  subst hp
  cases x <;> cases c <;>
    refine ⟨?_, ?_, ?_, ?_⟩ <;>
      simp [execute_file, routeMcpCheck, execBody_chmodAttempted,
        execBody_chmodSet]

/-- Claim C9, witness for the amended theorem. -/
theorem C9_witness :
    (execute_file ⟨true, false, true, ""⟩ (.timedOut "") none none 30
        none).2.chmodSet = true :=
  (C9_amended ⟨true, false, true, ""⟩ (.timedOut "") none none 30 none "f"
    .null rfl).2.1 rfl rfl

/-- The `id` member of the Runner-failure envelope is the raw caller id. -/
theorem pySubscript_id_runnerFail (msg : String) (stderr : Option String)
    (ec : Option Int) (id : Option Json) :
    pySubscript (runnerFailEnvelope msg stderr ec id) "id" = .ok (idJson id) := rfl

/-- The `id` member of the synthesized "start" success envelope is the raw
caller id. -/
theorem pySubscript_id_start (id : Option Json) :
    pySubscript (startNoOutputEnvelope id) "id" = .ok (idJson id) := rfl

/-- The `id` member of the empty-output error envelope is the raw caller
id. -/
theorem pySubscript_id_noOutput (stderr : Option String) (ec : Option Int)
    (id : Option Json) :
    pySubscript (noOutputErrorEnvelope stderr ec id) "id" = .ok (idJson id) := rfl

/-- The `id` member of the invalid-JSON error envelope is the raw caller
id. -/
theorem pySubscript_id_invalid (stdout stderr : Option String)
    (ec : Option Int) (pe : String) (id : Option Json) :
    pySubscript (invalidResponseEnvelope stdout stderr ec pe id) "id" =
      .ok (idJson id) := rfl

/-- The `id` member of the request envelope is the caller id defaulted
to 1. -/
theorem pySubscript_id_request (method : String) (params id : Option Json) :
    pySubscript (rpcRequest method params id) "id" = .ok (id.getD (.num 1)) := rfl

/-- Claim C4, counterexample.  The claim states that every response envelope
carries the same id as the request envelope the Bridge constructed (which
defaults to 1 when the caller supplies none), including on all
error-envelope paths.  The response dict literals use the raw caller `id`
(`"id": id`), not the defaulted request id: with a caller id of `None`, the
request envelope carries id 1 while the returned error envelope carries id
null. -/
theorem C4_counterexample :
    execute_json_rpc fsOK (.completed 1 "" "err" 1) "foo" none none 30 =
      .ok (runnerFailEnvelope "Execution failed, exit code: 1" (some "err")
        (some 1) none) ∧
    pySubscript (runnerFailEnvelope "Execution failed, exit code: 1"
        (some "err") (some 1) none) "id" = .ok .null ∧
    pySubscript (rpcRequest "foo" none none) "id" = .ok (.num 1) := by
  refine ⟨rfl, rfl, rfl⟩

/-- Claim C4, amended.  Whenever the Bridge synthesizes the response
envelope itself — the Runner outcome was a failure, or stdout was empty, or
stdout failed to parse as JSON — the envelope's id is the raw caller id
(null when the caller passed none); it therefore equals the request
envelope's id exactly when the caller supplied an id.  When stdout parses,
the child's document is returned verbatim with whatever id the child put in
it.  (The -32700 serialization-failure path is unreachable for JSON-typed
params.) -/
theorem C4_amended (fs : FileState) (proc : ProcBehavior) (method : String)
    (params id : Option Json) (t t' : Nat) (r : Json)
    (hT : effectiveTimeout params t = .ok t')
    (hr : execute_json_rpc fs proc method params id t = .ok r)
    (hsynth :
      (execute_file fs proc none (some ((rpcRequest method params id).dumps))
          t' none).1.success = false ∨
      optTruthy (execute_file fs proc none
          (some ((rpcRequest method params id).dumps)) t' none).1.stdout
        = false ∨
      ∃ e, parseJson ((execute_file fs proc none
          (some ((rpcRequest method params id).dumps)) t' none).1.stdout.getD "")
        = .error e) :
    pySubscript r "id" = .ok (idJson id) ∧
    (∀ v, id = some v →
      pySubscript (rpcRequest method params id) "id" = .ok v) := by
  constructor
  · unfold execute_json_rpc at hr
    rw [hT] at hr
    dsimp only at hr
    by_cases hsucc : (execute_file fs proc none
        (some ((rpcRequest method params id).dumps)) t' none).1.success = false
    · rw [hsucc] at hr
      simp only [Bool.not_false, if_true, Except.ok.injEq] at hr
      rw [← hr]
      exact pySubscript_id_runnerFail _ _ _ _
    · have hsucc' : (execute_file fs proc none
          (some ((rpcRequest method params id).dumps)) t' none).1.success = true := by
        cases hb : (execute_file fs proc none
            (some ((rpcRequest method params id).dumps)) t' none).1.success
        · exact absurd hb hsucc
        · rfl
      rw [hsucc'] at hr
      simp only [Bool.not_true, Bool.false_eq_true, if_false] at hr
      by_cases htr : optTruthy (execute_file fs proc none
          (some ((rpcRequest method params id).dumps)) t' none).1.stdout = true
      · rw [htr] at hr
        simp only [if_true] at hr
        rcases hsynth with h1 | h2 | ⟨e, h3⟩
        · exact absurd h1 (by rw [hsucc']; simp)
        · exact absurd h2 (by rw [htr]; simp)
        · rw [h3] at hr
          simp only [Except.ok.injEq] at hr
          rw [← hr]
          exact pySubscript_id_invalid _ _ _ _ _
      · have htr' : optTruthy (execute_file fs proc none
            (some ((rpcRequest method params id).dumps)) t' none).1.stdout
            = false := by
          cases hb : optTruthy (execute_file fs proc none
              (some ((rpcRequest method params id).dumps)) t' none).1.stdout
          · rfl
          · exact absurd hb htr
        rw [htr'] at hr
        simp only [Bool.false_eq_true, if_false] at hr
        by_cases hm : (method == "start") = true
        · rw [hm] at hr
          simp only [if_true, Except.ok.injEq] at hr
          rw [← hr]
          exact pySubscript_id_start _
        · have hm' : (method == "start") = false := by
            cases hb : method == "start"
            · rfl
            · exact absurd hb hm
          rw [hm'] at hr
          simp only [Bool.false_eq_true, if_false, Except.ok.injEq] at hr
          rw [← hr]
          exact pySubscript_id_noOutput _ _ _
  · intro v hv
    rw [pySubscript_id_request, hv]
    rfl

/-- Claim C4, witness for the amended theorem. -/
theorem C4_witness :
    pySubscript (runnerFailEnvelope "Execution failed, exit code: 1"
      (some "e") (some 1) (some (.num 7))) "id" = .ok (.num 7) ∧
    pySubscript (rpcRequest "m" none (some (.num 7))) "id" = .ok (.num 7) := by
  have h := C4_amended fsOK (.completed 1 "" "e" 1) "m" none (some (.num 7))
    30 30
    (runnerFailEnvelope "Execution failed, exit code: 1" (some "e") (some 1)
      (some (.num 7)))
    rfl rfl (Or.inl rfl)
  exact ⟨h.1, h.2 (.num 7) rfl⟩

/-- Claim C5.  The Bridge raises the effective timeout to `max(timeout, 60)`
exactly when `params` carries a `base64_data` field longer than 1000000
bytes; at or below that length the requested timeout is used unchanged, and
the effective timeout is never lower than the requested one (so a caller
timeout above 60 is never lowered). -/
theorem C5_timeout_heuristic (fields : List (String × Json)) (s : String)
    (t : Nat)
    (h : fields.find? (fun kv => kv.1 == "base64_data") =
      some ("base64_data", .str s)) :
    (s.length > 1000000 →
      effectiveTimeout (some (.obj fields)) t = .ok (max t 60)) ∧
    (s.length ≤ 1000000 →
      effectiveTimeout (some (.obj fields)) t = .ok t) ∧
    (∀ t'', effectiveTimeout (some (.obj fields)) t = .ok t'' → t ≤ t'') := by
  have hmem : ("base64_data", Json.str s) ∈ fields :=
    List.mem_of_find?_eq_some h
  have hne : fields ≠ [] := by
    rintro rfl
    simp at h
  have htr : pyTruthy (.obj fields) = true := by
    cases fields with
    | nil => exact absurd rfl hne
    | cons a l => rfl
  have hin : pyIn "base64_data" (.obj fields) = .ok true := by
    simp only [pyIn, Except.ok.injEq]
    rw [List.any_eq_true]
    exact ⟨("base64_data", Json.str s), hmem, by simp⟩
  have hsub : pySubscript (.obj fields) "base64_data" = .ok (.str s) := by
    simp [pySubscript, h]
  refine ⟨?_, ?_, ?_⟩
  · intro hlen
    simp [effectiveTimeout, htr, hin, hsub, pyLen, hlen]
  · intro hlen
    have hlt : ¬ s.length > 1000000 := by omega
    simp [effectiveTimeout, htr, hin, hsub, pyLen, hlt]
  · intro t'' ht''
    simp only [effectiveTimeout, htr, if_true, hin, hsub, pyLen] at ht''
    by_cases hl : s.length > 1000000
    · rw [if_pos hl] at ht''
      simp only [Except.ok.injEq] at ht''
      rw [← ht'']
      exact Nat.le_max_left t 60
    · rw [if_neg hl] at ht''
      simp only [Except.ok.injEq] at ht''
      rw [← ht'']

/-- Claim C5, witness: the boundary cases.  A `base64_data` field of
1000001 bytes raises a requested 10s timeout to 60s; fields of 999999 and
1000000 bytes leave it at 10s; a 120s caller timeout is not lowered. -/
theorem C5_witness :
    effectiveTimeout (some (.obj [("base64_data",
      .str (String.mk (List.replicate 1000001 'b')))])) 10 = .ok 60 ∧
    effectiveTimeout (some (.obj [("base64_data",
      .str (String.mk (List.replicate 999999 'b')))])) 10 = .ok 10 ∧
    effectiveTimeout (some (.obj [("base64_data",
      .str (String.mk (List.replicate 1000000 'b')))])) 10 = .ok 10 ∧
    effectiveTimeout (some (.obj [("base64_data",
      .str (String.mk (List.replicate 1000001 'b')))])) 120 = .ok 120 := by
  have l1 : (String.mk (List.replicate 1000001 'b')).length = 1000001 := by
    show (List.replicate 1000001 'b').length = 1000001
    rw [List.length_replicate]
  have l2 : (String.mk (List.replicate 999999 'b')).length = 999999 := by
    show (List.replicate 999999 'b').length = 999999
    rw [List.length_replicate]
  have l3 : (String.mk (List.replicate 1000000 'b')).length = 1000000 := by
    show (List.replicate 1000000 'b').length = 1000000
    rw [List.length_replicate]
  refine ⟨?_, ?_, ?_, ?_⟩
  · exact (C5_timeout_heuristic
      [("base64_data", .str (String.mk (List.replicate 1000001 'b')))]
      (String.mk (List.replicate 1000001 'b')) 10 rfl).1 (by rw [l1]; omega)
  · exact (C5_timeout_heuristic
      [("base64_data", .str (String.mk (List.replicate 999999 'b')))]
      (String.mk (List.replicate 999999 'b')) 10 rfl).2.1 (by rw [l2]; omega)
  · exact (C5_timeout_heuristic
      [("base64_data", .str (String.mk (List.replicate 1000000 'b')))]
      (String.mk (List.replicate 1000000 'b')) 10 rfl).2.1 (by rw [l3])
  · exact (C5_timeout_heuristic
      [("base64_data", .str (String.mk (List.replicate 1000001 'b')))]
      (String.mk (List.replicate 1000001 'b')) 120 rfl).1 (by rw [l1]; omega)

/-- Claim C6.  When the Runner outcome is success with empty stdout, the
Bridge synthesizes: for method "start", the success envelope
`{result: {status: "success", message: "Service started successfully"}, id}`;
for every other method, an error envelope with code -32603, message
"Execution successful but no output", data {stderr, exit_code}, id echoed. -/
theorem C6_empty_output (fs : FileState) (method : String)
    (params id : Option Json) (t t' : Nat) (stderr : String) (el : Nat)
    (hperm : permOk fs = true) (hT : effectiveTimeout params t = .ok t') :
    (method = "start" →
      execute_json_rpc fs (.completed 0 "" stderr el) method params id t =
        .ok (startNoOutputEnvelope id)) ∧
    (method ≠ "start" →
      execute_json_rpc fs (.completed 0 "" stderr el) method params id t =
        .ok (noOutputErrorEnvelope (if stderr == "" then none else some stderr)
          (some 0) id)) := by
  constructor
  · intro hm
    unfold execute_json_rpc
    rw [hT]
    dsimp only
    rw [execute_file_completed _ _ _ _ _ _ _ _ _ hperm]
    simp [completedResponse, optTruthy, hm]
  · intro hm
    unfold execute_json_rpc
    rw [hT]
    dsimp only
    rw [execute_file_completed _ _ _ _ _ _ _ _ _ hperm]
    simp [completedResponse, optTruthy, hm]

/-- Claim C6, witness. -/
theorem C6_witness :
    execute_json_rpc fsOK (.completed 0 "" "w" 2) "start" none
        (some (.num 3)) 30 = .ok (startNoOutputEnvelope (some (.num 3))) ∧
    execute_json_rpc fsOK (.completed 0 "" "w" 2) "foo" none
        (some (.num 3)) 30 =
      .ok (noOutputErrorEnvelope (some "w") (some 0) (some (.num 3))) := by
  constructor
  · exact (C6_empty_output fsOK "start" none (some (.num 3)) 30 30 "w" 2
      rfl rfl).1 rfl
  · have h := (C6_empty_output fsOK "foo" none (some (.num 3)) 30 30 "w" 2
      rfl rfl).2 (by decide)
    simpa using h

/-- Claim C7.  When the Runner outcome is success with non-empty stdout that
does not parse as JSON, the Bridge returns an error envelope with code
-32603, message "Response is not a valid JSON-RPC response", and data
carrying the raw stdout, the stderr, the exit code and the parse-error
detail, with the id echoed. -/
theorem C7_invalid_json (fs : FileState) (method : String)
    (params id : Option Json) (t t' : Nat) (out stderr : String) (el : Nat)
    (emsg : String) (hperm : permOk fs = true)
    (hT : effectiveTimeout params t = .ok t') (hout : (out == "") = false)
    (hparse : parseJson out = .error emsg) :
    execute_json_rpc fs (.completed 0 out stderr el) method params id t =
      .ok (invalidResponseEnvelope (some out)
        (if stderr == "" then none else some stderr) (some 0) emsg id) := by
  unfold execute_json_rpc
  rw [hT]
  dsimp only
  rw [execute_file_completed _ _ _ _ _ _ _ _ _ hperm]
  simp [completedResponse, optTruthy, hout, hparse]

/-- Claim C7, witness. -/
theorem C7_witness :
    execute_json_rpc fsOK (.completed 0 "not json" "w" 2) "foo" none
        (some (.num 9)) 30 =
      .ok (invalidResponseEnvelope (some "not json") (some "w") (some 0)
        "Expecting value" (some (.num 9))) := by
  have h := C7_invalid_json fsOK "foo" none (some (.num 9)) 30 30 "not json"
    "w" 2 "Expecting value" rfl rfl (by decide) rfl
  simpa using h

end Aio
